import Mathlib

/-!
Shallow embedding of the matsu-companion alert core:
the threshold evaluator `isValueOutOfRange` (src/utils.ts),
the alert-rule condition parser and config expansion of the new-schema
adapter (`parseAlertCondition`, `getAlertConfigs`, `getMonitors`,
`updateAlertConfig` in src/view-alerts.tsx), and the `custom` sort
comparator (`sortedMonitors` in src/list-monitors.tsx).

JavaScript numbers are modelled as `JNum`: either `NaN` or an exact
rational.  (The source only ever manipulates values coming from JSON
numbers and `parseFloat` of digit strings; rounding of binary floating
point is not exercised by any property considered here, so rationals are
an exact model of the comparisons involved.)  A JS `number | null`
(or an optional parameter, where `undefined` behaves like `null` in every
truthiness test of the source) is `Option JNum`.
-/

/-- A JavaScript number: `NaN` or a (finite) numeric value, modelled
exactly as a rational. -/
inductive JNum where
  | nan : JNum
  | num : ℚ → JNum
deriving DecidableEq, Repr

namespace JNum

/-- JS truthiness of a number: `NaN` and `0` are falsy. -/
def truthy : JNum → Bool
  | .nan => false
  | .num q => decide (q ≠ 0)

/-- JS `>` on numbers: any comparison with `NaN` is false. -/
def jgt : JNum → JNum → Bool
  | .num a, .num b => decide (a > b)
  | _, _ => false

/-- JS `<` on numbers: any comparison with `NaN` is false. -/
def jlt : JNum → JNum → Bool
  | .num a, .num b => decide (a < b)
  | _, _ => false

end JNum

/-- JS truthiness of a `number | null | undefined` value
(`none` models both `null` and `undefined`). -/
def optTruthy : Option JNum → Bool
  | none => false
  | some n => n.truthy

/-- Embeds `isValueOutOfRange` from src/utils.ts:

```ts
if (value === null) return false;
if (upperThreshold && value > upperThreshold) return true;
if (lowerThreshold && value < lowerThreshold) return true;
return false;
```

The guards `upperThreshold &&` / `lowerThreshold &&` are JS truthiness
tests, so a threshold that is `null`, `undefined`, `0` or `NaN` skips the
comparison. -/
def isValueOutOfRange (value upperThreshold lowerThreshold : Option JNum) : Bool :=
  match value with
  | none => false
  | some v =>
    if optTruthy upperThreshold && v.jgt (upperThreshold.getD .nan) then true
    else if optTruthy lowerThreshold && v.jlt (lowerThreshold.getD .nan) then true
    else false

/-! ## Condition parsing (`parseAlertCondition`, src/view-alerts.tsx)

The source extracts data from the free-form condition string with three
regular expressions:

* a monitor reference `\$\x7bmonitor:([^\x7d]+)\x7d` (first match);
* an upper threshold `(?:\$\x7bmonitor:[^\x7d]+\x7d|value)\s*>\s*([0-9.]+)`;
* a lower threshold, the same pattern with `<`.

These are embedded as explicit leftmost-match scanners over the
character list of the string.  Since `[^\x7d]+` cannot skip a closing
brace, `\s*` only matches whitespace and the two alternatives start with
distinct characters, the regexes are backtracking-free and the greedy
scanners below implement exactly the JS leftmost-match semantics. -/

/-- JS `\s` for the ASCII range (the whitespace characters that can
occur in the condition strings considered here). -/
def jsSpace (c : Char) : Bool :=
  c = ' ' || c = '\t' || c = '\n' || c = '\r' || c = '\x0b' || c = '\x0c'

/-- Character class `[0-9.]`. -/
def digitOrDot (c : Char) : Bool := c.isDigit || c = '.'

/-- Match a literal character sequence at the head of the input,
returning the rest of the input on success. -/
def matchLit : List Char → List Char → Option (List Char)
  | [], rest => some rest
  | _ :: _, [] => none
  | p :: ps, c :: cs => if p = c then matchLit ps cs else none

/-- Match `\$\x7bmonitor:([^\x7d]+)\x7d` anchored at the head of the
input; on success return the capture and the remaining input. -/
def monitorRefAt (cs : List Char) : Option (List Char × List Char) :=
  match matchLit "$\x7bmonitor:".data cs with
  | none => none
  | some rest =>
    let cap := rest.takeWhile (fun c => c ≠ '\x7d')
    match rest.dropWhile (fun c => c ≠ '\x7d') with
    | '\x7d' :: rest2 => if cap.isEmpty then none else some (cap, rest2)
    | _ => none

/-- Leftmost match of the monitor-reference regex: the capture of the
first position where it matches. -/
def findMonitorRef : List Char → Option (List Char)
  | [] => none
  | c :: cs =>
    match monitorRefAt (c :: cs) with
    | some (cap, _) => some cap
    | none => findMonitorRef cs

/-- Match `(?:\$\x7bmonitor:[^\x7d]+\x7d|value)\s*op\s*([0-9.]+)`
anchored at the head of the input, returning the numeric capture.
The two alternatives start with distinct characters (`$` vs `v`), so
trying the monitor reference first is exactly the regex's order. -/
def cmpAt (op : Char) (cs : List Char) : Option (List Char) :=
  let afterRef : Option (List Char) :=
    match monitorRefAt cs with
    | some (_, rest) => some rest
    | none => matchLit "value".data cs
  match afterRef with
  | none => none
  | some rest =>
    match rest.dropWhile jsSpace with
    | [] => none
    | c :: rest2 =>
      if c = op then
        let cap := (rest2.dropWhile jsSpace).takeWhile digitOrDot
        if cap.isEmpty then none else some cap
      else none

/-- Leftmost match of the threshold regex for comparison operator `op`. -/
def findCmp (op : Char) : List Char → Option (List Char)
  | [] => none
  | c :: cs =>
    match cmpAt op (c :: cs) with
    | some cap => some cap
    | none => findCmp op cs

/-- Digit string to natural number. -/
def digitsToNat (cs : List Char) : Nat :=
  cs.foldl (fun n c => 10 * n + (c.toNat - 48)) 0

/-- Embeds JS `parseFloat` on a capture of `[0-9.]+`: the longest valid
decimal-literal prefix is parsed (so `"12.5.7"` gives `12.5`, `"5."`
gives `5`, `".5"` gives `0.5`), and a capture with no digit before the
trailing junk (such as `"."` or `"..3"`) gives `NaN`.  The value is
modelled as the exact rational denoted by the decimal literal. -/
def parseFloatJ (cs : List Char) : JNum :=
  let intPart := cs.takeWhile Char.isDigit
  match cs.dropWhile Char.isDigit with
  | '.' :: rest =>
    let fracPart := rest.takeWhile Char.isDigit
    if intPart.isEmpty && fracPart.isEmpty then .nan
    else .num ((digitsToNat intPart : ℚ) +
      (digitsToNat fracPart : ℚ) / (10 : ℚ) ^ fracPart.length)
  | _ => if intPart.isEmpty then .nan else .num (digitsToNat intPart)

/-- Result record of `parseAlertCondition`. -/
structure ParsedCondition where
  upper_threshold : Option JNum
  lower_threshold : Option JNum
  monitor_id : Option String
deriving DecidableEq, Repr

/-- JS truthiness of a `string | undefined`: `undefined` and the empty
string are falsy. -/
def strTruthy : Option String → Bool
  | none => false
  | some s => decide (s ≠ "")

/-- Embeds `parseAlertCondition(condition, monitorId?)` from
src/view-alerts.tsx: extract the first embedded monitor reference; if a
`monitorId` argument was given and a different monitor reference was
found, return the all-null record; otherwise extract upper and lower
thresholds with the comparison regexes, applying `parseFloat` to the
captures. -/
def parseAlertCondition (condition : String) (monitorId : Option String) :
    ParsedCondition :=
  let monitor_id : Option String := (findMonitorRef condition.data).map String.mk
  if strTruthy monitorId && strTruthy monitor_id &&
      decide (monitor_id ≠ monitorId) then
    ⟨none, none, none⟩
  else
    ⟨(findCmp '>' condition.data).map parseFloatJ,
     (findCmp '<' condition.data).map parseFloatJ,
     monitor_id⟩

/-! ## Data model of the new-schema adapter (src/view-alerts.tsx) -/

/-- Upstream monitor resource (`interface ApiMonitor`). -/
structure ApiMonitor where
  id : String
  name : String
  formula : String
  unit : Option String
  description : Option String
  color : Option String
  decimal_places : JNum
  enabled : Bool
  value : Option JNum
  computed_at : String
  created_at : String
  updated_at : String
deriving DecidableEq, Repr

/-- Upstream alert-rule resource (`interface ApiAlertRule`). -/
structure ApiAlertRule where
  id : String
  name : String
  condition : String
  level : String
  enabled : Bool
  cooldown_seconds : JNum
  actions : List String
  created_at : String
  updated_at : String
deriving DecidableEq, Repr

/-- Legacy monitor shape expected by the UI (`interface MonitorSummary`). -/
structure MonitorSummary where
  monitor_id : String
  monitor_name : Option String
  monitor_type : Option String
  url : String
  unit : Option String
  color : Option String
  description : Option String
  tags : Option String
  total_records : JNum
  latest_value : Option JNum
  latest_timestamp : String
  min_value : Option JNum
  max_value : Option JNum
  avg_value : Option JNum
  change_count : JNum
deriving DecidableEq, Repr

/-- Normalized per-monitor alert configuration (`interface AlertConfig`). -/
structure AlertConfig where
  monitor_id : String
  upper_threshold : Option JNum
  lower_threshold : Option JNum
  alert_level : String
  created_at : String
  updated_at : String
deriving DecidableEq, Repr

/-- Embeds `transformMonitor` of the new-schema adapter: maps the new API
monitor format to the legacy `MonitorSummary` shape.  The source's
`apiMonitor.computed_at || apiMonitor.updated_at` is a JS truthiness
fallback, so an empty `computed_at` string falls back to `updated_at`. -/
def transformMonitor (apiMonitor : ApiMonitor) : MonitorSummary where
  monitor_id := apiMonitor.id
  monitor_name := some apiMonitor.name
  monitor_type := some "monitor"
  url := ""
  unit := apiMonitor.unit
  color := apiMonitor.color
  description := apiMonitor.description
  tags := none
  total_records := .num 0
  latest_value := apiMonitor.value
  latest_timestamp :=
    if apiMonitor.computed_at ≠ "" then apiMonitor.computed_at
    else apiMonitor.updated_at
  min_value := none
  max_value := none
  avg_value := none
  change_count := .num 0

/-- Embeds `getMonitors`: the upstream fetch of `/api/monitors` either
succeeds with a list or throws; the `try/catch` in the source maps every
thrown error to an empty list.  The fetch outcome is passed in as an
`Except` value. -/
def getMonitors (fetchResult : Except String (List ApiMonitor)) :
    List MonitorSummary :=
  match fetchResult with
  | .ok apiMonitors => apiMonitors.map transformMonitor
  | .error _ => []

/-- The loop body of `getAlertConfigs` for a single rule: skip disabled
rules; parse the condition; skip rules with neither threshold; if the
parsed monitor id is truthy, emit one config for the first monitor with
that id (none if missing); otherwise broadcast one config per monitor. -/
def configsForRule (monitors : List ApiMonitor) (rule : ApiAlertRule) :
    List AlertConfig :=
  if !rule.enabled then []
  else
    let p := parseAlertCondition rule.condition none
    if p.upper_threshold = none ∧ p.lower_threshold = none then []
    else
      let broadcast : List AlertConfig := monitors.map (fun monitor =>
        { monitor_id := monitor.id
          upper_threshold := p.upper_threshold
          lower_threshold := p.lower_threshold
          alert_level := rule.level
          created_at := rule.created_at
          updated_at := rule.updated_at })
      match p.monitor_id with
      | some mid =>
        if mid = "" then broadcast
        else
          match monitors.find? (fun m => m.id == mid) with
          | some monitor =>
            [{ monitor_id := monitor.id
               upper_threshold := p.upper_threshold
               lower_threshold := p.lower_threshold
               alert_level := rule.level
               created_at := rule.created_at
               updated_at := rule.updated_at }]
          | none => []
      | none => broadcast

/-- The whole `for (const rule of alertRules)` loop of `getAlertConfigs`:
configs are accumulated rule by rule in order. -/
def getAlertConfigsCore (alertRules : List ApiAlertRule)
    (monitors : List ApiMonitor) : List AlertConfig :=
  alertRules.flatMap (configsForRule monitors)

/-- Embeds `getAlertConfigs`: the two fetches run under one `try/catch`
(`Promise.all` rejects if either rejects), and every thrown error is
mapped to an empty config list. -/
def getAlertConfigs (rulesResult : Except String (List ApiAlertRule))
    (monitorsResult : Except String (List ApiMonitor)) : List AlertConfig :=
  match rulesResult, monitorsResult with
  | .ok alertRules, .ok monitors => getAlertConfigsCore alertRules monitors
  | _, _ => []

/-- JS number-to-string conversion as used by the template literals
`` `value > ${upperThreshold}` `` in `updateAlertConfig`.  Exact for
integral values (the only values reached by the properties below);
non-integral values are rendered as a fraction, standing in for the JS
shortest-round-trip decimal form. -/
def jsNumRender : JNum → String
  | .nan => "NaN"
  | .num q => if q.den = 1 then toString q.num else toString q

/-- JS `Array.prototype.join(sep)`. -/
def jsJoin (sep : String) : List String → String
  | [] => ""
  | a :: rest => rest.foldl (fun acc x => acc ++ sep ++ x) a

/-- JS `x || null` on a `number | undefined`: `undefined`, `0` and `NaN`
all collapse to `null`. -/
def jsOrNull (x : Option JNum) : Option JNum :=
  match x with
  | some n => if n.truthy then some n else none
  | none => none

/-- The request body `updateAlertConfig` POSTs to `/api/alert-rules`. -/
structure PostedAlertRule where
  name : String
  condition : String
  level : String
  enabled : Bool
  cooldown_seconds : JNum
  actions : List String
deriving DecidableEq, Repr

/-- Embeds the pure core of `updateAlertConfig(monitorId, upperThreshold?,
lowerThreshold?, alertLevel)`: builds the rule body posted to
`/api/alert-rules` (first component), whose condition string joins the
comparisons for the thresholds that are not `undefined`, and builds the
`AlertConfig` returned to the caller (second component) from the echoed
rule, with `upper_threshold: upperThreshold || null` and
`lower_threshold: lowerThreshold || null`. -/
def updateAlertConfig (monitorId : String)
    (upperThreshold lowerThreshold : Option JNum) (alertLevel : String)
    (rule : ApiAlertRule) : PostedAlertRule × AlertConfig :=
  let conditions : List String :=
    (match upperThreshold with
     | some u => ["value > " ++ jsNumRender u]
     | none => []) ++
    (match lowerThreshold with
     | some l => ["value < " ++ jsNumRender l]
     | none => [])
  let condition := jsJoin " OR " conditions
  ({ name := "Alert for " ++ monitorId
     condition := condition
     level := alertLevel
     enabled := true
     cooldown_seconds := .num 300
     actions := [] },
   { monitor_id := monitorId
     upper_threshold := jsOrNull upperThreshold
     lower_threshold := jsOrNull lowerThreshold
     alert_level := rule.level
     created_at := rule.created_at
     updated_at := rule.updated_at })

/-! ## Custom sort (src/list-monitors.tsx, `sortedMonitors`) -/

/-- JS `Array.prototype.indexOf`: first index of the element, `-1` when
absent. -/
def jsIndexOf (l : List String) (s : String) : Int :=
  match l.findIdx? (fun t => t == s) with
  | some i => (i : Int)
  | none => -1

/-- The `custom` case of the sort comparator in `sortedMonitors`.  The
final tie-break (`localeCompare` of the lowercased display names) is
locale-dependent, so it is taken as a parameter `nameCmp`; the
properties proved below hold for every such comparator. -/
def customCompare (customOrder : List String)
    (nameCmp : MonitorSummary → MonitorSummary → Int)
    (a b : MonitorSummary) : Int :=
  let indexA := jsIndexOf customOrder a.monitor_id
  let indexB := jsIndexOf customOrder b.monitor_id
  if indexA ≠ -1 ∧ indexB ≠ -1 then indexA - indexB
  else if indexA ≠ -1 then -1
  else if indexB ≠ -1 then 1
  else nameCmp a b

/-- Embeds `[...monitors].sort(cmp)` under the `custom` strategy.
ECMAScript `Array.prototype.sort` is stable and, for a consistent
comparator, produces a list sorted by `cmp ≤ 0`; the stable
`List.mergeSort` with that relation is such an implementation. -/
def sortedMonitorsCustom (customOrder : List String)
    (nameCmp : MonitorSummary → MonitorSummary → Int)
    (monitors : List MonitorSummary) : List MonitorSummary :=
  monitors.mergeSort (fun a b =>
    decide (customCompare customOrder nameCmp a b ≤ 0))

/-! ## Concrete sample data used to instantiate the theorems below -/

/-- A sample upstream monitor with the given id. -/
def mkApiMonitor (id : String) : ApiMonitor :=
  ⟨id, id, "", none, none, none, .num 2, true, none, "", "", ""⟩

/-- Three sample monitors. -/
def monsABC : List ApiMonitor :=
  [mkApiMonitor "a", mkApiMonitor "b", mkApiMonitor "c"]

/-- An enabled global rule (no monitor reference) with upper threshold 100. -/
def ruleG : ApiAlertRule :=
  ⟨"r1", "global", "value > 100", "high", true, .num 300, [], "", ""⟩

/-- An enabled rule scoped to monitor `a` with upper threshold 100. -/
def ruleSpec : ApiAlertRule :=
  ⟨"r2", "scoped", "$\x7bmonitor:a\x7d > 100", "critical", true, .num 300, [], "", ""⟩

/-- A disabled rule. -/
def ruleDisabled : ApiAlertRule :=
  ⟨"r3", "off", "value > 1", "low", false, .num 300, [], "", ""⟩

/-- An enabled rule whose condition has no comparison operators. -/
def ruleFooBar : ApiAlertRule :=
  ⟨"r0", "unparseable", "foo bar", "low", true, .num 300, [], "", ""⟩

/-- A sample `MonitorSummary` with the given id. -/
def mkMon (id : String) : MonitorSummary :=
  ⟨id, none, none, "", none, none, none, none, .num 0, none, "", none, none,
   none, .num 0⟩

/-- **C1** (code evaluation at the failing input): the source's
`isValueOutOfRange(-1, null, 0)` returns `false`, not `true` as the spec
requires: the truthiness guard `if (lowerThreshold && ...)` treats the
threshold `0` as absent, so the comparison `-1 < 0` is never made.
More generally, with upper threshold `null` and lower threshold `0` the
function returns `false` for every value. -/
theorem C1_code_eval :
    isValueOutOfRange (some (.num (-1))) none (some (.num 0)) = false ∧
    ∀ v : ℚ, isValueOutOfRange (some (.num v)) none (some (.num 0)) = false := by
  constructor
  · rfl
  · intro v
    simp [isValueOutOfRange, optTruthy, JNum.truthy]

/-- **C9**: `isValueOutOfRange` returns `false` whenever the monitor's
current value is `null`, for every combination of upper and lower
thresholds (present, absent, zero or `NaN`): absence of data is never a
breach. -/
theorem C9_null_value_never_breaches (upper lower : Option JNum) :
    isValueOutOfRange none upper lower = false := rfl

/-- **C2**: the three reference examples of condition parsing.
`"$\x7bmonitor:m1\x7d > 100"` yields monitor id `m1`, upper threshold
`100` and no lower threshold; `"value < 5"` yields no monitor id, lower
threshold `5` and no upper threshold; `"foo bar"` yields no thresholds,
and the skip step of `getAlertConfigs` therefore produces zero configs
for any rule carrying that condition. -/
theorem C2_condition_parsing_examples :
    parseAlertCondition "$\x7bmonitor:m1\x7d > 100" none =
      ⟨some (.num 100), none, some "m1"⟩ ∧
    parseAlertCondition "value < 5" none = ⟨none, some (.num 5), none⟩ ∧
    parseAlertCondition "foo bar" none = ⟨none, none, none⟩ ∧
    (∀ (rule : ApiAlertRule) (monitors : List ApiMonitor),
      rule.condition = "foo bar" → configsForRule monitors rule = []) := by
  refine ⟨by decide, by decide, by decide, ?_⟩
  intro rule monitors hc
  have h : parseAlertCondition rule.condition none = ⟨none, none, none⟩ := by
    rw [hc]; decide
  simp [configsForRule, h]

/-- Witness for C2: the skip step applied to a concrete rule whose
condition is `"foo bar"`. -/
theorem C2_condition_parsing_examples_witness :
    ruleFooBar.condition = "foo bar" ∧ configsForRule monsABC ruleFooBar = [] :=
  ⟨rfl, C2_condition_parsing_examples.2.2.2 ruleFooBar monsABC rfl⟩

/-- **C4**: a disabled rule contributes zero configs, whatever its
condition text. -/
theorem C4_disabled_rule_no_configs (rule : ApiAlertRule)
    (monitors : List ApiMonitor) (hd : rule.enabled = false) :
    configsForRule monitors rule = [] := by
  simp [configsForRule, hd]

/-- Witness for C4 at a concrete disabled rule. -/
theorem C4_disabled_rule_no_configs_witness :
    ruleDisabled.enabled = false ∧ configsForRule monsABC ruleDisabled = [] :=
  ⟨rfl, C4_disabled_rule_no_configs ruleDisabled monsABC rfl⟩

/-- **C3**: an enabled rule whose condition yields at least one threshold
and no monitor id broadcasts: it emits exactly one config per fetched
monitor, each carrying the rule's thresholds and severity level. -/
theorem C3_global_rule_broadcast (rule : ApiAlertRule)
    (monitors : List ApiMonitor) (u l : Option JNum)
    (he : rule.enabled = true)
    (hp : parseAlertCondition rule.condition none = ⟨u, l, none⟩)
    (ht : ¬(u = none ∧ l = none)) :
    configsForRule monitors rule =
      monitors.map (fun monitor =>
        ⟨monitor.id, u, l, rule.level, rule.created_at, rule.updated_at⟩) ∧
    (configsForRule monitors rule).length = monitors.length := by
  have hmain : configsForRule monitors rule =
      monitors.map (fun monitor =>
        ⟨monitor.id, u, l, rule.level, rule.created_at, rule.updated_at⟩) := by
    simp [configsForRule, he, hp, ht]
  exact ⟨hmain, by rw [hmain]; simp⟩

/-- Witness for C3: the global rule `ruleG` over three monitors produces
exactly three configs. -/
theorem C3_global_rule_broadcast_witness :
    ruleG.enabled = true ∧
    parseAlertCondition ruleG.condition none = ⟨some (.num 100), none, none⟩ ∧
    (configsForRule monsABC ruleG).length = monsABC.length :=
  ⟨rfl, by decide,
    (C3_global_rule_broadcast ruleG monsABC (some (.num 100)) none rfl
      (by decide) (by decide)).2⟩

/-- **C5**: an enabled rule whose condition yields a threshold and a
(nonempty) monitor id emits exactly one config targeting that monitor
when it exists in the fetched list, and zero configs when it does not. -/
theorem C5_specific_monitor_rule (rule : ApiAlertRule)
    (monitors : List ApiMonitor) (mid : String) (u l : Option JNum)
    (he : rule.enabled = true)
    (hp : parseAlertCondition rule.condition none = ⟨u, l, some mid⟩)
    (hmid : mid ≠ "")
    (ht : ¬(u = none ∧ l = none)) :
    ((∃ m ∈ monitors, m.id = mid) →
      configsForRule monitors rule =
        [⟨mid, u, l, rule.level, rule.created_at, rule.updated_at⟩]) ∧
    ((∀ m ∈ monitors, m.id ≠ mid) → configsForRule monitors rule = []) := by
  have hbody : configsForRule monitors rule =
      (match monitors.find? (fun m => m.id == mid) with
       | some monitor =>
         [(⟨monitor.id, u, l, rule.level, rule.created_at, rule.updated_at⟩ :
           AlertConfig)]
       | none => []) := by
    simp [configsForRule, he, hp, ht, hmid]
  constructor
  · rintro ⟨m, hm, hid⟩
    have hsome : (monitors.find? (fun m => m.id == mid)).isSome := by
      rw [List.find?_isSome]
      exact ⟨m, hm, by simp [hid]⟩
    obtain ⟨m', hm'⟩ := Option.isSome_iff_exists.mp hsome
    have hid' : m'.id = mid := by simpa using List.find?_some hm'
    rw [hbody, hm']
    simp [hid']
  · intro hall
    have hnone : monitors.find? (fun m => m.id == mid) = none := by
      rw [List.find?_eq_none]
      intro m hm
      simp [hall m hm]
    rw [hbody, hnone]

/-- Witness for C5: the scoped rule `ruleSpec` targets monitor `a`, which
exists among the three sample monitors, so exactly one config is
emitted. -/
theorem C5_specific_monitor_rule_witness :
    (∃ m ∈ monsABC, m.id = "a") ∧
    configsForRule monsABC ruleSpec =
      [⟨"a", some (.num 100), none, "critical", "", ""⟩] :=
  ⟨⟨mkApiMonitor "a", by decide, rfl⟩,
    (C5_specific_monitor_rule ruleSpec monsABC "a" (some (.num 100)) none rfl
      (by decide) (by decide) (by decide)).1
      ⟨mkApiMonitor "a", by decide, rfl⟩⟩

/-- Helper: any config emitted for a rule carries the rule's parsed
thresholds, and the rule passed the skip step, so at least one of them
is non-null. -/
theorem mem_configsForRule_threshold (monitors : List ApiMonitor)
    (rule : ApiAlertRule) (cfg : AlertConfig)
    (h : cfg ∈ configsForRule monitors rule) :
    cfg.upper_threshold ≠ none ∨ cfg.lower_threshold ≠ none := by
  simp only [configsForRule] at h
  split at h
  · simp at h
  · split at h
    · simp at h
    · rename_i hc
      rcases not_and_or.mp hc with h1 | h1
      all_goals
        split at h
        case _ mid =>
          split at h
          · rcases List.mem_map.mp h with ⟨m, _, rfl⟩
            first
              | exact Or.inl h1
              | exact Or.inr h1
          · split at h
            · simp at h
              subst h
              first
                | exact Or.inl h1
                | exact Or.inr h1
            · simp at h
        case _ =>
          rcases List.mem_map.mp h with ⟨m, _, rfl⟩
          first
            | exact Or.inl h1
            | exact Or.inr h1

/-- **C6**: every config in the list returned by `getAlertConfigs` has
at least one non-null threshold: rules yielding neither threshold are
discarded and contribute no config. -/
theorem C6_every_config_has_a_threshold
    (rulesResult : Except String (List ApiAlertRule))
    (monitorsResult : Except String (List ApiMonitor)) (cfg : AlertConfig)
    (h : cfg ∈ getAlertConfigs rulesResult monitorsResult) :
    cfg.upper_threshold ≠ none ∨ cfg.lower_threshold ≠ none := by
  cases rulesResult with
  | error e => simp [getAlertConfigs] at h
  | ok rules =>
    cases monitorsResult with
    | error e => simp [getAlertConfigs] at h
    | ok monitors =>
      simp only [getAlertConfigs, getAlertConfigsCore, List.mem_flatMap] at h
      obtain ⟨rule, _, hcfg⟩ := h
      exact mem_configsForRule_threshold monitors rule cfg hcfg

/-- Witness for C6 at a concrete fetch result containing one config. -/
theorem C6_every_config_has_a_threshold_witness :
    (⟨"a", some (.num 100), none, "high", "", ""⟩ : AlertConfig) ∈
      getAlertConfigs (.ok [ruleG]) (.ok monsABC) ∧
    ((⟨"a", some (.num 100), none, "high", "", ""⟩ : AlertConfig).upper_threshold
        ≠ none ∨
      (⟨"a", some (.num 100), none, "high", "", ""⟩ : AlertConfig).lower_threshold
        ≠ none) :=
  ⟨by decide,
    C6_every_config_has_a_threshold (.ok [ruleG]) (.ok monsABC) _ (by decide)⟩

/-- **C7**: a failed monitor-list fetch makes `getMonitors` return the
empty list, and a failure of either fetch makes `getAlertConfigs` return
the empty list; no error is propagated. -/
theorem C7_fetch_failure_yields_empty (e : String)
    (monitorsResult : Except String (List ApiMonitor))
    (rulesResult : Except String (List ApiAlertRule)) :
    getMonitors (.error e) = [] ∧
    getAlertConfigs (.error e) monitorsResult = [] ∧
    getAlertConfigs rulesResult (.error e) = [] := by
  refine ⟨rfl, ?_, ?_⟩
  · cases monitorsResult <;> rfl
  · cases rulesResult <;> rfl

/-- Helper: `customCompare` is transitive in the `≤ 0` sense whenever the
name tie-break comparator is. -/
theorem customCompare_trans (customOrder : List String)
    (nameCmp : MonitorSummary → MonitorSummary → Int)
    (htrans : ∀ a b c, nameCmp a b ≤ 0 → nameCmp b c ≤ 0 → nameCmp a c ≤ 0)
    (a b c : MonitorSummary)
    (hab : customCompare customOrder nameCmp a b ≤ 0)
    (hbc : customCompare customOrder nameCmp b c ≤ 0) :
    customCompare customOrder nameCmp a c ≤ 0 := by
  by_cases ha : jsIndexOf customOrder a.monitor_id ≠ -1 <;>
  by_cases hb : jsIndexOf customOrder b.monitor_id ≠ -1 <;>
  by_cases hc : jsIndexOf customOrder c.monitor_id ≠ -1 <;>
  simp only [customCompare, ha, hb, hc, and_true, true_and, and_false,
    false_and, if_true, if_false, not_true_eq_false, not_false_eq_true,
    ite_true, ite_false] at hab hbc ⊢ <;>
  first
    | omega
    | exact htrans a b c hab hbc

/-- Helper: `customCompare` is total in the `≤ 0` sense whenever the
name tie-break comparator is. -/
theorem customCompare_total (customOrder : List String)
    (nameCmp : MonitorSummary → MonitorSummary → Int)
    (htot : ∀ a b, nameCmp a b ≤ 0 ∨ nameCmp b a ≤ 0)
    (a b : MonitorSummary) :
    customCompare customOrder nameCmp a b ≤ 0 ∨
    customCompare customOrder nameCmp b a ≤ 0 := by
  by_cases ha : jsIndexOf customOrder a.monitor_id ≠ -1 <;>
  by_cases hb : jsIndexOf customOrder b.monitor_id ≠ -1 <;>
  simp only [customCompare, ha, hb, and_true, true_and, and_false,
    false_and, if_true, if_false, not_true_eq_false, not_false_eq_true,
    ite_true, ite_false] <;>
  first
    | omega
    | exact htot a b

/-- Helper: a pair allowed by `customCompare ≤ 0` satisfies the listed
before-unlisted / listed-in-order relation of the custom sort. -/
theorem customCompare_key (customOrder : List String)
    (nameCmp : MonitorSummary → MonitorSummary → Int)
    (a b : MonitorSummary)
    (hab : customCompare customOrder nameCmp a b ≤ 0) :
    (jsIndexOf customOrder b.monitor_id ≠ -1 →
      jsIndexOf customOrder a.monitor_id ≠ -1) ∧
    (jsIndexOf customOrder a.monitor_id ≠ -1 →
      jsIndexOf customOrder b.monitor_id ≠ -1 →
      jsIndexOf customOrder a.monitor_id ≤ jsIndexOf customOrder b.monitor_id) := by
  by_cases ha : jsIndexOf customOrder a.monitor_id ≠ -1 <;>
  by_cases hb : jsIndexOf customOrder b.monitor_id ≠ -1 <;>
  simp only [customCompare, ha, hb, and_true, true_and, and_false,
    false_and, if_true, if_false, not_true_eq_false, not_false_eq_true,
    ite_true, ite_false, true_implies, false_implies, implies_true,
    and_self, and_true] at hab ⊢ <;>
  omega

/-- **C8**: under the custom sort strategy (for any consistent name
tie-break comparator), every output pair is ordered so that items whose
monitor id occurs in the custom-order list come before items whose id
does not, and listed items appear in the order of their positions in the
custom-order list. -/
theorem C8_custom_sort_order (customOrder : List String)
    (nameCmp : MonitorSummary → MonitorSummary → Int)
    (monitors : List MonitorSummary)
    (htot : ∀ a b, nameCmp a b ≤ 0 ∨ nameCmp b a ≤ 0)
    (htrans : ∀ a b c, nameCmp a b ≤ 0 → nameCmp b c ≤ 0 → nameCmp a c ≤ 0) :
    (sortedMonitorsCustom customOrder nameCmp monitors).Pairwise (fun a b =>
      (jsIndexOf customOrder b.monitor_id ≠ -1 →
        jsIndexOf customOrder a.monitor_id ≠ -1) ∧
      (jsIndexOf customOrder a.monitor_id ≠ -1 →
        jsIndexOf customOrder b.monitor_id ≠ -1 →
        jsIndexOf customOrder a.monitor_id ≤
          jsIndexOf customOrder b.monitor_id)) := by
  have hs :=
    @List.sorted_mergeSort MonitorSummary
      (fun a b => decide (customCompare customOrder nameCmp a b ≤ 0))
      (fun a b c hab hbc => by
        simp only [decide_eq_true_eq] at hab hbc ⊢
        exact customCompare_trans customOrder nameCmp htrans a b c hab hbc)
      (fun a b => by
        simp only [Bool.or_eq_true, decide_eq_true_eq]
        exact customCompare_total customOrder nameCmp htot a b)
      monitors
  unfold sortedMonitorsCustom
  refine hs.imp ?_
  intro a b hab
  exact customCompare_key customOrder nameCmp a b (of_decide_eq_true hab)

/-- Witness for C8 at a concrete custom order and monitor list, with the
trivial (constant-zero, hence consistent) name comparator. -/
theorem C8_custom_sort_order_witness :
    (sortedMonitorsCustom ["b", "a"] (fun _ _ => 0)
      [mkMon "a", mkMon "c", mkMon "b"]).Pairwise (fun a b =>
      (jsIndexOf ["b", "a"] b.monitor_id ≠ -1 →
        jsIndexOf ["b", "a"] a.monitor_id ≠ -1) ∧
      (jsIndexOf ["b", "a"] a.monitor_id ≠ -1 →
        jsIndexOf ["b", "a"] b.monitor_id ≠ -1 →
        jsIndexOf ["b", "a"] a.monitor_id ≤ jsIndexOf ["b", "a"] b.monitor_id)) :=
  C8_custom_sort_order ["b", "a"] (fun _ _ => 0) [mkMon "a", mkMon "c", mkMon "b"]
    (fun _ _ => Or.inl (le_refl 0)) (fun _ _ _ _ _ => le_refl 0)

/-- **C10**: calling `updateAlertConfig` with a threshold equal to `0`
posts a condition string that does contain the comparison against `0`
(`"value > 0"` resp. `"value < 0"`), yet the `AlertConfig` returned to
the caller has that threshold field `null`: the return path applies the
truthiness fallback `upperThreshold || null` / `lowerThreshold || null`,
which collapses `0` to `null`. -/
theorem C10_zero_threshold_posted_but_nulled (monitorId alertLevel : String)
    (rule : ApiAlertRule) :
    (∀ lower : Option JNum,
      (∃ rest : List Char,
        ((updateAlertConfig monitorId (some (.num 0)) lower alertLevel
          rule).1.condition).data = "value > 0".data ++ rest) ∧
      (updateAlertConfig monitorId (some (.num 0)) lower alertLevel
        rule).2.upper_threshold = none) ∧
    (∀ upper : Option JNum,
      (∃ pre : List Char,
        ((updateAlertConfig monitorId upper (some (.num 0)) alertLevel
          rule).1.condition).data = pre ++ "value < 0".data) ∧
      (updateAlertConfig monitorId upper (some (.num 0)) alertLevel
        rule).2.lower_threshold = none) := by
  have h0 : jsNumRender (.num 0) = "0" := by decide
  constructor
  · intro lower
    refine ⟨?_, rfl⟩
    cases lower with
    | none => exact ⟨[], rfl⟩
    | some l =>
      refine ⟨(" OR " ++ ("value < " ++ jsNumRender l)).data, ?_⟩
      show ((("value > " ++ jsNumRender (.num 0)) ++ " OR ") ++
          ("value < " ++ jsNumRender l)).data =
        "value > 0".data ++ (" OR " ++ ("value < " ++ jsNumRender l)).data
      rw [h0]
      have hv : ("value > " : String) ++ "0" = "value > 0" := by decide
      rw [hv]
      simp [List.append_assoc]
  · intro upper
    refine ⟨?_, rfl⟩
    cases upper with
    | none => exact ⟨[], rfl⟩
    | some u =>
      refine ⟨(("value > " ++ jsNumRender u) ++ " OR ").data, ?_⟩
      show ((("value > " ++ jsNumRender u) ++ " OR ") ++
          ("value < " ++ jsNumRender (.num 0))).data =
        (("value > " ++ jsNumRender u) ++ " OR ").data ++ "value < 0".data
      rw [h0]
      have hv : ("value < " : String) ++ "0" = "value < 0" := by decide
      rw [hv]
      simp [List.append_assoc]
